import Mathlib

/-!
Cockpit bridge: the fsdir1 and fswatch1 channels

A shallow embedding of `src/bridge/cockpitfsdir.c` and `src/bridge/cockpitfswatch.c`.

Every C function that talks to a collaborator (the channel, GIO, the GLib main loop) becomes a
pure function that returns the new session record together with the ordered list of calls it
made (`Action`).  What a collaborator hands back (the value of the "path" option, the outcome
of a GIO call, the id returned by `g_signal_connect`, what one main-loop iteration dispatches)
is an explicit argument, and so is the content of a local variable the source reads without
having initialised it.

Not part of the trace: diagnostic logging (`g_warning`, `g_message`) and the release of
temporaries (`g_free`, `g_bytes_unref`, `json_object_unref`, `g_list_free_full`, the unref of the
local `GFile` and of the finished enumerator).  JSON serialisation (`cockpit_json_write_bytes`)
is the identity: a sent payload is the JSON object itself.
-/

namespace Cockpit

/-! ## Collaborator data -/

/-- Member value of a JSON object: a string, or JSON null (what json-glib stores when
`json_object_set_string_member` is handed a NULL string). -/
inductive JsonNode where
  | str (s : String)
  | null
  deriving DecidableEq, Repr

/-- JSON object of json-glib: members in insertion order. -/
abbrev JsonObject := List (String × JsonNode)

/-- Empty object, `json_object_new ()`. -/
def json_object_new : JsonObject := []

/-- Node for a C string: a string node, or the null node for NULL. -/
def json_node_of_string : Option String → JsonNode
  | some s => JsonNode.str s
  | none => JsonNode.null

/-- Setter `json_object_set_string_member`: replaces the member when the name is already
there, adds it at the end otherwise. -/
def json_object_set_string_member (object : JsonObject) (member_name : String)
    (value : Option String) : JsonObject :=
  let node := json_node_of_string value
  if object.any (fun m => m.1 == member_name) then
    object.map (fun m => if m.1 == member_name then (m.1, node) else m)
  else
    object ++ [(member_name, node)]

/-- Test `json_object_has_member`. -/
def json_object_has_member (object : JsonObject) (member_name : String) : Bool :=
  object.any (fun m => m.1 == member_name)

/-- Lookup `json_object_get_member`. -/
def json_object_get_member (object : JsonObject) (member_name : String) : Option JsonNode :=
  (object.find? (fun m => m.1 == member_name)).map (fun m => m.2)

/-- Error record of GLib: domain quark (by its string), code, text. -/
structure GError where
  domain : String
  code : Int
  message : String
  deriving DecidableEq, Repr

/-- Domain `G_IO_ERROR` of GIO. -/
def G_IO_ERROR : String := "g-io-error-quark"

/-- Code `G_IO_ERROR_CANCELLED` of GIO (gioenums.h). -/
def G_IO_ERROR_CANCELLED : Int := 19

/-- Test `g_error_matches` on a non-NULL error. -/
def g_error_matches (error : GError) (domain : String) (code : Int) : Bool :=
  error.domain == domain && error.code == code

/-- Content of a `GError *` local that is declared without an initialiser, at the moment
its address is handed to GIO: NULL, or an indeterminate pointer.  GIO stores an error only in
a location that holds NULL; any other content is left as it is. -/
inductive ErrorSlot where
  | null
  | indeterminate
  deriving DecidableEq, Repr

/-- Local file handle; `g_file_new_for_path` wraps a path and `g_file_get_path` reads it
back. -/
structure GFile where
  path : String
  deriving DecidableEq, Repr

/-- Path of a local file, `g_file_get_path`. -/
def g_file_get_path (file : GFile) : String := file.path

/-- Directory entry as listed with `G_FILE_ATTRIBUTE_STANDARD_NAME`: only the name is
requested. -/
structure GFileInfo where
  name : String
  deriving DecidableEq, Repr

/-- Cancellation token. -/
structure GCancellable where
  cancelled : Bool
  deriving DecidableEq, Repr

/-- Monitor object of GIO as far as these channels touch it: the ids of the handlers
connected to its "changed" signal, and whether it was cancelled. -/
structure GFileMonitor where
  handlers : List Nat
  cancelled : Bool
  deriving DecidableEq, Repr

/-- Completion of a GIO asynchronous call that was started with a cancellable (the
`g_task_propagate_pointer` behind the finish functions): once the token is triggered the
finish call reports `G_IO_ERROR_CANCELLED`, whatever the operation itself produced; with an
untriggered token, or none, it hands the outcome of the operation on. -/
def g_task_propagate {α : Type} (cancellable : Option GCancellable)
    (outcome : Except GError α) : Except GError α :=
  match cancellable with
  | some c =>
    if c.cancelled then
      .error ⟨G_IO_ERROR, G_IO_ERROR_CANCELLED, "Operation was cancelled"⟩
    else outcome
  | none => outcome

/-- Connect a handler to "changed": the id chosen by GObject joins the handler table. -/
def g_signal_connect (monitor : GFileMonitor) (handler_id : Nat) : GFileMonitor :=
  { monitor with handlers := monitor.handlers ++ [handler_id] }

/-- Disconnect by id: that id leaves the handler table (an unknown id changes nothing). -/
def g_signal_handler_disconnect (monitor : GFileMonitor) (handler_id : Nat) : GFileMonitor :=
  { monitor with handlers := monitor.handlers.filter (fun h => h != handler_id) }

/-- Cancel the monitor, `g_file_monitor_cancel`. -/
def g_file_monitor_cancel (monitor : GFileMonitor) : GFileMonitor :=
  { monitor with cancelled := true }

/-- Event kind of a monitor notification; the codes are those of GIO (gioenums.h). -/
abbrev GFileMonitorEvent := Int

def G_FILE_MONITOR_EVENT_CHANGED : GFileMonitorEvent := 0
def G_FILE_MONITOR_EVENT_CHANGES_DONE_HINT : GFileMonitorEvent := 1
def G_FILE_MONITOR_EVENT_DELETED : GFileMonitorEvent := 2
def G_FILE_MONITOR_EVENT_CREATED : GFileMonitorEvent := 3
def G_FILE_MONITOR_EVENT_ATTRIBUTE_CHANGED : GFileMonitorEvent := 4
def G_FILE_MONITOR_EVENT_PRE_UNMOUNT : GFileMonitorEvent := 5
def G_FILE_MONITOR_EVENT_UNMOUNTED : GFileMonitorEvent := 6
def G_FILE_MONITOR_EVENT_MOVED : GFileMonitorEvent := 7

/-- Raw notification as the "changed" signal carries it: file, other file (both may be
NULL), event kind. -/
structure RawNotification where
  file : Option GFile
  other_file : Option GFile
  event_type : GFileMonitorEvent
  deriving DecidableEq, Repr

/-- One call of `g_main_context_iteration (NULL, FALSE)`: the monitor notifications it
dispatches, and the value it returns (TRUE when something was dispatched). -/
structure MainContextIteration where
  notifications : List RawNotification
  result : Bool
  deriving DecidableEq, Repr

/-- Calls made on collaborators, in the order they are made.  `undefined_behaviour` marks a
read through an indeterminate pointer: from there on the C program has no defined behaviour
and the trace stops. -/
inductive Action where
  | channel_prepare
  | channel_send (payload : JsonObject) (trust_is_utf8 : Bool)
  | channel_close_option (name : String) (value : String)
  | channel_close (problem : String)
  | channel_ready
  | cancellable_new
  | cancellable_cancel
  | file_enumerate_children_async (path : String)
  | file_enumerator_next_files_async (num_files : Nat)
  | file_monitor_directory (path : String)
  | file_monitor (path : String)
  | signal_connect (handler_id : Nat)
  | signal_handler_disconnect (handler_id : Nat)
  | file_monitor_cancel
  | main_context_iteration (result : Bool)
  | parent_dispose
  | parent_finalize
  | undefined_behaviour
  deriving DecidableEq, Repr

/-- Recognise a `cockpit_channel_send`. -/
def Action.isSend : Action → Bool
  | .channel_send _ _ => true
  | _ => false

/-- Recognise a `cockpit_channel_close`. -/
def Action.isClose : Action → Bool
  | .channel_close _ => true
  | _ => false

/-- Recognise a batch request `g_file_enumerator_next_files_async`. -/
def Action.isNextFiles : Action → Bool
  | .file_enumerator_next_files_async _ => true
  | _ => false

/-- Recognise the enumeration-open call `g_file_enumerate_children_async`. -/
def Action.isEnumerateChildren : Action → Bool
  | .file_enumerate_children_async _ => true
  | _ => false

/-- Recognise a monitor subscription call (`g_file_monitor_directory`, `g_file_monitor`). -/
def Action.isMonitorCreate : Action → Bool
  | .file_monitor_directory _ => true
  | .file_monitor _ => true
  | _ => false

/-- Payloads sent on the channel, in order. -/
def sent : List Action → List JsonObject
  | [] => []
  | .channel_send payload _ :: rest => payload :: sent rest
  | _ :: rest => sent rest

/-- Emission of "changed" on a monitor: every connected handler runs the callback. -/
def g_signal_emit_changed (monitor : GFileMonitor) (callback : RawNotification → List Action)
    (n : RawNotification) : List Action :=
  monitor.handlers.flatMap (fun _ => callback n)

/-! ## cockpitfswatch.c -/

/-- Session record `CockpitFswatch`. -/
structure CockpitFswatch where
  path : Option String
  monitor : Option GFileMonitor
  sig_changed : Nat
  deriving DecidableEq, Repr

/-- Wire name of an event kind, the `switch` of `event_type_to_string`. -/
def event_type_to_string (event_type : GFileMonitorEvent) : String :=
  if event_type = G_FILE_MONITOR_EVENT_CHANGED then "changed"
  else if event_type = G_FILE_MONITOR_EVENT_CHANGES_DONE_HINT then "done-hint"
  else if event_type = G_FILE_MONITOR_EVENT_DELETED then "deleted"
  else if event_type = G_FILE_MONITOR_EVENT_CREATED then "created"
  else if event_type = G_FILE_MONITOR_EVENT_ATTRIBUTE_CHANGED then "attribute-changed"
  else if event_type = G_FILE_MONITOR_EVENT_PRE_UNMOUNT then "pre-unmount"
  else if event_type = G_FILE_MONITOR_EVENT_UNMOUNTED then "unmounted"
  else if event_type = G_FILE_MONITOR_EVENT_MOVED then "moved"
  else "unknown"

/-- Translation `cockpit_fswatch_emit_event`.  The tag utility `cockpit_get_file_tag`
(cockpitfsread.c) is a parameter; it may return NULL. -/
def cockpit_fswatch_emit_event (cockpit_get_file_tag : String → Option String)
    (file : Option GFile) (other_file : Option GFile) (event_type : GFileMonitorEvent) :
    List Action :=
  let msg := json_object_new
  let msg := json_object_set_string_member msg "event" (some (event_type_to_string event_type))
  let msg :=
    match file with
    | some f =>
      let p := g_file_get_path f
      let t := cockpit_get_file_tag p
      let msg := json_object_set_string_member msg "path" (some p)
      json_object_set_string_member msg "tag" t
    | none => msg
  let msg :=
    match other_file with
    | some o =>
      let p := g_file_get_path o
      json_object_set_string_member msg "other" (some p)
    | none => msg
  [Action.channel_send msg true]

/-- The loop `for (tries = 0; tries < 10; tries++) if (!g_main_context_iteration (NULL, FALSE))
break;` of both dispose functions, with `tries_left` iterations still allowed.  `deliver` is
what a dispatched monitor notification triggers; an exhausted `loop` has nothing pending. -/
def spin_main_loop (deliver : RawNotification → List Action) :
    Nat → List MainContextIteration → List Action
  | 0, _ => []
  | _ + 1, [] => [Action.main_context_iteration false]
  | tries_left + 1, it :: rest =>
    Action.main_context_iteration it.result :: (it.notifications.flatMap deliver ++
      (if it.result then spin_main_loop deliver tries_left rest else []))

namespace Fswatch

/-- Signal handler `on_changed` of cockpitfswatch.c. -/
def on_changed (cockpit_get_file_tag : String → Option String) (_self : CockpitFswatch)
    (n : RawNotification) : List Action :=
  cockpit_fswatch_emit_event cockpit_get_file_tag n.file n.other_file n.event_type

end Fswatch

/-- Channel method `cockpit_fswatch_prepare`.  `option_path` is the value of the "path"
option, `monitor_result` what `g_file_monitor` returns, `handler_id` the `gulong` returned by
`g_signal_connect` (stored in a `guint`). -/
def cockpit_fswatch_prepare (self : CockpitFswatch) (option_path : Option String)
    (monitor_result : Except GError GFileMonitor) (handler_id : Nat) :
    CockpitFswatch × List Action :=
  match option_path with
  | none => (self, [Action.channel_prepare, Action.channel_close "protocol-error"])
  | some path =>
    if path = "" then
      (self, [Action.channel_prepare, Action.channel_close "protocol-error"])
    else
      match monitor_result with
      | .error error =>
        (self, [Action.channel_prepare, Action.file_monitor path,
          Action.channel_close_option "message" error.message,
          Action.channel_close "internal-error"])
      | .ok monitor =>
        ({ self with monitor := some (g_signal_connect monitor handler_id),
                     sig_changed := handler_id % 2 ^ 32 },
          [Action.channel_prepare, Action.file_monitor path,
           Action.signal_connect handler_id, Action.channel_ready])

/-- Object method `cockpit_fswatch_dispose`; `loop` is what the main loop has in store for
the successive `g_main_context_iteration` calls. -/
def cockpit_fswatch_dispose (cockpit_get_file_tag : String → Option String)
    (self : CockpitFswatch) (loop : List MainContextIteration) :
    CockpitFswatch × List Action :=
  match self.monitor with
  | some monitor =>
    let disconnected : GFileMonitor × List Action :=
      if self.sig_changed ≠ 0 then
        (g_signal_handler_disconnect monitor self.sig_changed,
          [Action.signal_handler_disconnect self.sig_changed])
      else (monitor, [])
    let monitor := g_file_monitor_cancel disconnected.1
    let self : CockpitFswatch := { self with sig_changed := 0, monitor := some monitor }
    (self, disconnected.2 ++ [Action.file_monitor_cancel] ++
      spin_main_loop
        (g_signal_emit_changed monitor (Fswatch.on_changed cockpit_get_file_tag self)) 10 loop ++
      [Action.parent_dispose])
  | none => (self, [Action.parent_dispose])

/-- Object method `cockpit_fswatch_finalize`: `g_clear_object (&self->monitor)`. -/
def cockpit_fswatch_finalize (self : CockpitFswatch) : CockpitFswatch × List Action :=
  ({ self with monitor := none }, [Action.parent_finalize])

/-! ## cockpitfsdir.c -/

/-- Session record `CockpitFsdir`. -/
structure CockpitFsdir where
  path : Option String
  monitor : Option GFileMonitor
  sig_changed : Nat
  cancellable : Option GCancellable
  deriving DecidableEq, Repr

/-- Instance init `cockpit_fsdir_init`: GObject hands out zeroed memory. -/
def cockpit_fsdir_init : CockpitFsdir :=
  { path := none, monitor := none, sig_changed := 0, cancellable := none }

/-- The "present" message built in the loop of `on_files_listed`. -/
def present_message (info : GFileInfo) : JsonObject :=
  let msg := json_object_new
  let msg := json_object_set_string_member msg "event" (some "present")
  json_object_set_string_member msg "path" (some info.name)

/-- The "present-done" message built in `on_files_listed`. -/
def present_done_message : JsonObject :=
  let msg := json_object_new
  json_object_set_string_member msg "event" (some "present-done")

/-- The finish call `g_file_enumerator_next_files_finish` for a batch request, which the
session issues with its own token (`self->cancellable`, cockpitfsdir.c:130-135 and
162-167); `outcome` is what the listing itself produced. -/
def g_file_enumerator_next_files_finish (self : CockpitFsdir)
    (outcome : Except GError (List GFileInfo)) : Except GError (List GFileInfo) :=
  g_task_propagate self.cancellable outcome

/-- The finish call `g_file_enumerate_children_finish` for the enumeration-open call, which
the session issues with its own token (cockpitfsdir.c:200-206); `outcome` is what opening
the directory itself produced. -/
def g_file_enumerate_children_finish (self : CockpitFsdir)
    (outcome : Except GError Unit) : Except GError Unit :=
  g_task_propagate self.cancellable outcome

/-- Callback `on_files_listed`; `res` is what `g_file_enumerator_next_files_finish` returns
(an error, or the list of entries, NULL being the empty list). -/
def on_files_listed (self : CockpitFsdir) (res : Except GError (List GFileInfo)) :
    CockpitFsdir × List Action :=
  match res with
  | .error error =>
    if !g_error_matches error G_IO_ERROR G_IO_ERROR_CANCELLED then
      (self, [Action.channel_close_option "message" error.message,
              Action.channel_close "internal-error"])
    else (self, [])
  | .ok [] =>
    ({ self with cancellable := none }, [Action.channel_send present_done_message false])
  | .ok files =>
    (self, files.map (fun info => Action.channel_send (present_message info) false) ++
      [Action.file_enumerator_next_files_async 10])

/-- Callback `on_enumerator_ready`; `res` is what `g_file_enumerate_children_finish` returns
(an error with a NULL enumerator, or the enumerator). -/
def on_enumerator_ready (self : CockpitFsdir) (res : Except GError Unit) :
    CockpitFsdir × List Action :=
  match res with
  | .error error =>
    if !g_error_matches error G_IO_ERROR G_IO_ERROR_CANCELLED then
      (self, [Action.channel_close_option "message" error.message,
              Action.channel_close "internal-error"])
    else (self, [])
  | .ok _ => (self, [Action.file_enumerator_next_files_async 10])

namespace Fsdir

/-- Signal handler `on_changed` of cockpitfsdir.c. -/
def on_changed (cockpit_get_file_tag : String → Option String) (_self : CockpitFsdir)
    (n : RawNotification) : List Action :=
  cockpit_fswatch_emit_event cockpit_get_file_tag n.file n.other_file n.event_type

end Fsdir

/-- Channel method `cockpit_fsdir_prepare`.  `option_path` is the value of the "path" option,
`monitor_result` what `g_file_monitor_directory` returns, `handler_id` the `gulong` returned
by `g_signal_connect` (stored in a `guint`).  The local `GError *error` is declared without
an initialiser (cockpitfsdir.c:185): `error_on_entry` is what it happens to hold when its
address is handed to `g_file_monitor_directory`.  When the monitor fails, GIO stores its
error only if the location holds NULL; otherwise `error->message` is read through an
indeterminate pointer. -/
def cockpit_fsdir_prepare (self : CockpitFsdir) (option_path : Option String)
    (error_on_entry : ErrorSlot) (monitor_result : Except GError GFileMonitor)
    (handler_id : Nat) : CockpitFsdir × List Action :=
  let self : CockpitFsdir := { self with path := option_path }
  match option_path with
  | none => (self, [Action.channel_prepare, Action.channel_close "protocol-error"])
  | some path =>
    if path = "" then
      (self, [Action.channel_prepare, Action.channel_close "protocol-error"])
    else
      let self : CockpitFsdir := { self with cancellable := some { cancelled := false } }
      match monitor_result with
      | .error error =>
        match error_on_entry with
        | .null =>
          ({ self with monitor := none },
            [Action.channel_prepare, Action.cancellable_new,
             Action.file_enumerate_children_async path, Action.file_monitor_directory path,
             Action.channel_close_option "message" error.message,
             Action.channel_close "internal-error"])
        | .indeterminate =>
          ({ self with monitor := none },
            [Action.channel_prepare, Action.cancellable_new,
             Action.file_enumerate_children_async path, Action.file_monitor_directory path,
             Action.undefined_behaviour])
      | .ok monitor =>
        ({ self with monitor := some (g_signal_connect monitor handler_id),
                     sig_changed := handler_id % 2 ^ 32 },
          [Action.channel_prepare, Action.cancellable_new,
           Action.file_enumerate_children_async path, Action.file_monitor_directory path,
           Action.signal_connect handler_id, Action.channel_ready])

/-- Object method `cockpit_fsdir_dispose`; `loop` is what the main loop has in store for the
successive `g_main_context_iteration` calls. -/
def cockpit_fsdir_dispose (cockpit_get_file_tag : String → Option String)
    (self : CockpitFsdir) (loop : List MainContextIteration) :
    CockpitFsdir × List Action :=
  let cancelled : CockpitFsdir × List Action :=
    match self.cancellable with
    | some _ => ({ self with cancellable := some { cancelled := true } },
        [Action.cancellable_cancel])
    | none => (self, [])
  let self := cancelled.1
  match self.monitor with
  | some monitor =>
    let disconnected : GFileMonitor × List Action :=
      if self.sig_changed ≠ 0 then
        (g_signal_handler_disconnect monitor self.sig_changed,
          [Action.signal_handler_disconnect self.sig_changed])
      else (monitor, [])
    let monitor := g_file_monitor_cancel disconnected.1
    let self : CockpitFsdir := { self with sig_changed := 0, monitor := some monitor }
    (self, cancelled.2 ++ disconnected.2 ++ [Action.file_monitor_cancel] ++
      spin_main_loop
        (g_signal_emit_changed monitor (Fsdir.on_changed cockpit_get_file_tag self)) 10 loop ++
      [Action.parent_dispose])
  | none => (self, cancelled.2 ++ [Action.parent_dispose])

/-- Object method `cockpit_fsdir_finalize`: `g_clear_object` on the token and the monitor. -/
def cockpit_fsdir_finalize (self : CockpitFsdir) : CockpitFsdir × List Action :=
  ({ self with cancellable := none, monitor := none }, [Action.parent_finalize])

/-- The main loop handing successive batch results to `on_files_listed`: a result is
delivered while a batch request is outstanding; the callback that issues no new request ends
the run.  Returns the session, the calls made, and the results never asked for. -/
def deliver_batches (self : CockpitFsdir) :
    List (Except GError (List GFileInfo)) →
      CockpitFsdir × List Action × List (Except GError (List GFileInfo))
  | [] => (self, [], [])
  | res :: rest =>
    let step := on_files_listed self res
    if step.2.any Action.isNextFiles then
      let tail := deliver_batches step.1 rest
      (tail.1, step.2 ++ tail.2.1, tail.2.2)
    else (step.1, step.2, rest)

/-- The main loop completing the enumeration-open call and then the batch requests. -/
def deliver_enumeration (self : CockpitFsdir) (open_res : Except GError Unit)
    (results : List (Except GError (List GFileInfo))) :
    CockpitFsdir × List Action × List (Except GError (List GFileInfo)) :=
  let step := on_enumerator_ready self open_res
  if step.2.any Action.isNextFiles then
    let tail := deliver_batches step.1 results
    (tail.1, step.2 ++ tail.2.1, tail.2.2)
  else (step.1, step.2, results)

/-! ## Vocabulary of the statements -/

/-- The eight event kinds `event_type_to_string` has a case for. -/
def recognised_events : List GFileMonitorEvent :=
  [G_FILE_MONITOR_EVENT_CHANGED, G_FILE_MONITOR_EVENT_CHANGES_DONE_HINT,
   G_FILE_MONITOR_EVENT_DELETED, G_FILE_MONITOR_EVENT_CREATED,
   G_FILE_MONITOR_EVENT_ATTRIBUTE_CHANGED, G_FILE_MONITOR_EVENT_PRE_UNMOUNT,
   G_FILE_MONITOR_EVENT_UNMOUNTED, G_FILE_MONITOR_EVENT_MOVED]

/-- The wire kinds a translated notification may carry. -/
def wire_kinds : List String :=
  ["changed", "created", "deleted", "attribute-changed", "moved", "done-hint", "pre-unmount",
   "unmounted", "unknown"]

/-- The calls `on_files_listed` makes for a non-empty batch: one "present" per entry, then
the request for the next batch. -/
def batch_actions (files : List GFileInfo) : List Action :=
  files.map (fun info => Action.channel_send (present_message info) false) ++
    [Action.file_enumerator_next_files_async 10]

/-- The calls of a trace other than `cockpit_channel_send`. -/
def calls (trace : List Action) : List Action :=
  trace.filter (fun a => !a.isSend)

/-- Number of leading main-loop iterations that report pending work. -/
def busy_run (loop : List MainContextIteration) : Nat :=
  (loop.takeWhile (fun it => it.result)).length

/-- The `g_main_context_iteration` calls of a drain, in closed form: one call per busy
iteration up to ten, then the call that reports nothing pending if the cap allows it. -/
def drain_calls (loop : List MainContextIteration) : List Action :=
  List.replicate (min 10 (busy_run loop)) (Action.main_context_iteration true) ++
    (if busy_run loop < 10 then [Action.main_context_iteration false] else [])

/-! ## Auxiliary lemmas -/

/-- A non-empty batch is forwarded entry by entry and followed by the next request. -/
theorem on_files_listed_batch (self : CockpitFsdir) (files : List GFileInfo)
    (h : files ≠ []) : on_files_listed self (.ok files) = (self, batch_actions files) := by
  cases files with
  | nil => exact absurd rfl h
  | cons a t => rfl

/-- The calls for a non-empty batch contain a batch request. -/
theorem batch_actions_any_next (files : List GFileInfo) :
    (batch_actions files).any Action.isNextFiles = true := by
  simp [batch_actions, Action.isNextFiles]

/-- After a non-empty batch the run goes on with the remaining results. -/
theorem deliver_batches_batch (self : CockpitFsdir) (files : List GFileInfo)
    (rest : List (Except GError (List GFileInfo))) (h : files ≠ []) :
    deliver_batches self (.ok files :: rest) =
      ((deliver_batches self rest).1, batch_actions files ++ (deliver_batches self rest).2.1,
        (deliver_batches self rest).2.2) := by
  simp [deliver_batches, on_files_listed_batch self files h, batch_actions_any_next]

/-- The empty batch ends the run with "present-done". -/
theorem deliver_batches_done (self : CockpitFsdir)
    (rest : List (Except GError (List GFileInfo))) :
    deliver_batches self (.ok [] :: rest) =
      ({ self with cancellable := none },
        [Action.channel_send present_done_message false], rest) := by
  simp [deliver_batches, on_files_listed, Action.isNextFiles]

/-- Payloads of a concatenated trace. -/
theorem sent_append (xs ys : List Action) : sent (xs ++ ys) = sent xs ++ sent ys := by
  induction xs with
  | nil => rfl
  | cons a t ih => cases a <;> simp [sent, ih]

/-- Payloads sent for one batch. -/
theorem sent_batch_actions (files : List GFileInfo) :
    sent (batch_actions files) = files.map present_message := by
  induction files with
  | nil => rfl
  | cons a t ih =>
    have hstep : sent (batch_actions (a :: t)) = present_message a :: sent (batch_actions t) :=
      rfl
    rw [hstep, ih, List.map_cons]

/-- Leading non-empty batches are forwarded one after the other. -/
theorem deliver_batches_leading (self : CockpitFsdir) (batches : List (List GFileInfo))
    (tail : List (Except GError (List GFileInfo))) (h : ∀ b ∈ batches, b ≠ []) :
    deliver_batches self (batches.map Except.ok ++ tail) =
      ((deliver_batches self tail).1,
        batches.flatMap batch_actions ++ (deliver_batches self tail).2.1,
        (deliver_batches self tail).2.2) := by
  induction batches with
  | nil => simp
  | cons b bs ih =>
    have hb : b ≠ [] := h b (List.mem_cons_self _ _)
    have hbs : ∀ c ∈ bs, c ≠ [] := fun c hc => h c (List.mem_cons_of_mem _ hc)
    simp only [List.map_cons, List.cons_append, deliver_batches_batch self b _ hb, ih hbs,
      List.flatMap_cons, List.append_assoc]

/-- Trace of a complete listing. -/
theorem deliver_batches_listing (self : CockpitFsdir) (batches : List (List GFileInfo))
    (rest : List (Except GError (List GFileInfo))) (h : ∀ b ∈ batches, b ≠ []) :
    deliver_batches self (batches.map Except.ok ++ .ok [] :: rest) =
      ({ self with cancellable := none },
        batches.flatMap batch_actions ++ [Action.channel_send present_done_message false],
        rest) := by
  rw [deliver_batches_leading self batches _ h, deliver_batches_done]

/-- A failing batch ends the run with the error report. -/
theorem deliver_batches_failure (self : CockpitFsdir) (e : GError)
    (rest : List (Except GError (List GFileInfo)))
    (h : g_error_matches e G_IO_ERROR G_IO_ERROR_CANCELLED = false) :
    deliver_batches self (.error e :: rest) =
      (self, [Action.channel_close_option "message" e.message,
        Action.channel_close "internal-error"], rest) := by
  simp [deliver_batches, on_files_listed, h, Action.isNextFiles]

/-- Payloads sent for a run of batches. -/
theorem sent_flatMap_batch_actions (batches : List (List GFileInfo)) :
    sent (batches.flatMap batch_actions) = batches.flatten.map present_message := by
  induction batches with
  | nil => rfl
  | cons b bs ih =>
    simp [List.flatMap_cons, sent_append, sent_batch_actions, ih]

/-- A map to empty lists flattens to the empty list. -/
theorem flatMap_silent {α β : Type} (f : α → List β) (h : ∀ a, f a = []) (l : List α) :
    l.flatMap f = [] := by
  induction l with
  | nil => rfl
  | cons a t ih => simp [List.flatMap_cons, h a, ih]

/-- Closed form of the drain when dispatched notifications trigger nothing. -/
theorem spin_main_loop_silent (deliver : RawNotification → List Action)
    (hd : ∀ n, deliver n = []) (tries : Nat) (loop : List MainContextIteration) :
    spin_main_loop deliver tries loop =
      List.replicate (min tries (busy_run loop)) (Action.main_context_iteration true) ++
        (if busy_run loop < tries then [Action.main_context_iteration false] else []) := by
  induction tries generalizing loop with
  | zero => simp [spin_main_loop]
  | succ t ih =>
    cases loop with
    | nil => simp [spin_main_loop, busy_run]
    | cons it rest =>
      cases hr : it.result with
      | false =>
        simp [spin_main_loop, busy_run, List.takeWhile, hr, flatMap_silent deliver hd]
      | true =>
        have hk : busy_run (it :: rest) = busy_run rest + 1 := by
          simp [busy_run, List.takeWhile, hr]
        rw [hk]
        simp only [spin_main_loop, hr, flatMap_silent deliver hd, List.nil_append, if_true,
          ih rest, Nat.add_lt_add_iff_right, Nat.add_min_add_right, List.replicate_succ,
          List.cons_append]

/-- Number of iterations of a drain. -/
theorem drain_calls_length (loop : List MainContextIteration) :
    (drain_calls loop).length = min 10 (busy_run loop + 1) := by
  unfold drain_calls
  split_ifs with h <;> simp <;> omega

/-- An emission on a monitor without handlers runs nothing. -/
theorem emit_without_handlers (callback : RawNotification → List Action)
    (cancelled : Bool) (n : RawNotification) :
    g_signal_emit_changed ⟨[], cancelled⟩ callback n = [] := rfl

/-- Disconnecting the only handler id empties the handler table. -/
theorem disconnect_only_handler (m : GFileMonitor) (sig : Nat)
    (h : ∀ x ∈ m.handlers, x = sig) :
    g_signal_handler_disconnect m sig = ⟨[], m.cancelled⟩ := by
  have : m.handlers.filter (fun x => x != sig) = [] := by
    rw [List.filter_eq_nil_iff]
    intro x hx
    simp [h x hx]
  simp [g_signal_handler_disconnect, this]

/-- Main-loop iterations carry no payload. -/
theorem sent_replicate_iteration (k : Nat) (b : Bool) :
    sent (List.replicate k (Action.main_context_iteration b)) = [] := by
  induction k with
  | zero => rfl
  | succ k ih => simp [List.replicate_succ, sent, ih]

/-- The drain calls carry no payload. -/
theorem sent_drain_calls (loop : List MainContextIteration) : sent (drain_calls loop) = [] := by
  unfold drain_calls
  split_ifs <;> simp [sent_append, sent_replicate_iteration, sent]

/-- Trace of the fsdir dispose when the connected handler is the recorded one. -/
theorem fsdir_dispose_subscribed (cockpit_get_file_tag : String → Option String)
    (loop : List MainContextIteration) (self : CockpitFsdir) (m : GFileMonitor)
    (hm : self.monitor = some m) (hs : self.sig_changed ≠ 0)
    (hh : ∀ x ∈ m.handlers, x = self.sig_changed) :
    cockpit_fsdir_dispose cockpit_get_file_tag self loop =
      ({ self with cancellable := self.cancellable.map (fun _ => ⟨true⟩), sig_changed := 0,
                   monitor := some ⟨[], true⟩ },
        (if self.cancellable.isSome then [Action.cancellable_cancel] else []) ++
          [Action.signal_handler_disconnect self.sig_changed, Action.file_monitor_cancel] ++
          drain_calls loop ++ [Action.parent_dispose]) := by
  obtain ⟨path, mon, sig, canc⟩ := self
  simp only at hm hs hh
  subst hm
  have hdis := disconnect_only_handler m sig hh
  cases canc <;>
    simp [cockpit_fsdir_dispose, hs, hdis, g_file_monitor_cancel, drain_calls,
      spin_main_loop_silent _ (emit_without_handlers _ true)]

/-- Trace of the fswatch dispose when the connected handler is the recorded one. -/
theorem fswatch_dispose_subscribed (cockpit_get_file_tag : String → Option String)
    (loop : List MainContextIteration) (self : CockpitFswatch) (m : GFileMonitor)
    (hm : self.monitor = some m) (hs : self.sig_changed ≠ 0)
    (hh : ∀ x ∈ m.handlers, x = self.sig_changed) :
    cockpit_fswatch_dispose cockpit_get_file_tag self loop =
      ({ self with sig_changed := 0, monitor := some ⟨[], true⟩ },
        [Action.signal_handler_disconnect self.sig_changed, Action.file_monitor_cancel] ++
          drain_calls loop ++ [Action.parent_dispose]) := by
  obtain ⟨path, mon, sig⟩ := self
  simp only at hm hs hh
  subst hm
  have hdis := disconnect_only_handler m sig hh
  simp [cockpit_fswatch_dispose, hs, hdis, g_file_monitor_cancel, drain_calls,
    spin_main_loop_silent _ (emit_without_handlers _ true)]

/-- Calls of a concatenated trace. -/
theorem calls_append (xs ys : List Action) : calls (xs ++ ys) = calls xs ++ calls ys := by
  simp [calls]

/-- Pieces without calls flatten to a trace without calls. -/
theorem calls_flatMap_silent {α : Type} (f : α → List Action) (h : ∀ a, calls (f a) = [])
    (l : List α) : calls (l.flatMap f) = [] := by
  induction l with
  | nil => rfl
  | cons a t ih => simp [List.flatMap_cons, calls_append, h a, ih]

/-- The translation of a notification makes no call but the send. -/
theorem emit_event_calls (cockpit_get_file_tag : String → Option String)
    (file other_file : Option GFile) (event_type : GFileMonitorEvent) :
    calls (cockpit_fswatch_emit_event cockpit_get_file_tag file other_file event_type) =
      [] := by
  simp [calls, cockpit_fswatch_emit_event, Action.isSend]

/-- An emission of "changed" makes no call but sends when the callback makes none. -/
theorem emit_changed_calls (m : GFileMonitor) (callback : RawNotification → List Action)
    (h : ∀ n, calls (callback n) = []) (n : RawNotification) :
    calls (g_signal_emit_changed m callback n) = [] :=
  calls_flatMap_silent (fun _ => callback n) (fun _ => h n) m.handlers

/-- Closed form of the calls of the drain when notifications only trigger sends. -/
theorem spin_main_loop_calls (deliver : RawNotification → List Action)
    (hd : ∀ n, calls (deliver n) = []) (tries : Nat) (loop : List MainContextIteration) :
    calls (spin_main_loop deliver tries loop) =
      List.replicate (min tries (busy_run loop)) (Action.main_context_iteration true) ++
        (if busy_run loop < tries then [Action.main_context_iteration false] else []) := by
  induction tries generalizing loop with
  | zero => simp [spin_main_loop, calls]
  | succ t ih =>
    cases loop with
    | nil => simp [spin_main_loop, busy_run, calls, Action.isSend]
    | cons it rest =>
      have hcons : ∀ (b : Bool) (xs : List Action),
          calls (Action.main_context_iteration b :: xs) =
            Action.main_context_iteration b :: calls xs := by
        intro b xs
        simp [calls, Action.isSend]
      cases hr : it.result with
      | false =>
        simp [spin_main_loop, busy_run, List.takeWhile, hr, hcons, calls_append,
          calls_flatMap_silent deliver hd]
      | true =>
        have hk : busy_run (it :: rest) = busy_run rest + 1 := by
          simp [busy_run, List.takeWhile, hr]
        rw [hk]
        simp only [spin_main_loop, hr, hcons, calls_append, calls_flatMap_silent deliver hd,
          List.nil_append, if_true, ih rest, Nat.add_lt_add_iff_right,
          Nat.add_min_add_right, List.replicate_succ, List.cons_append]

/-- Calls and final session of the fsdir dispose for any session that holds a monitor. -/
theorem fsdir_dispose_calls (cockpit_get_file_tag : String → Option String)
    (loop : List MainContextIteration) (self : CockpitFsdir) (m : GFileMonitor)
    (hm : self.monitor = some m) :
    calls (cockpit_fsdir_dispose cockpit_get_file_tag self loop).2 =
        (if self.cancellable.isSome then [Action.cancellable_cancel] else []) ++
          (if self.sig_changed ≠ 0 then [Action.signal_handler_disconnect self.sig_changed]
            else []) ++
          [Action.file_monitor_cancel] ++ drain_calls loop ++ [Action.parent_dispose] ∧
    (cockpit_fsdir_dispose cockpit_get_file_tag self loop).1 =
      { self with
        cancellable := self.cancellable.map (fun _ => ⟨true⟩), sig_changed := 0,
        monitor := some (g_file_monitor_cancel
          (if self.sig_changed ≠ 0 then g_signal_handler_disconnect m self.sig_changed
            else m)) } := by
  obtain ⟨path, mon, sig, canc⟩ := self
  simp only at hm
  subst hm
  have hspin := fun (mm : GFileMonitor) (ss : CockpitFsdir) =>
    spin_main_loop_calls
      (g_signal_emit_changed mm (Fsdir.on_changed cockpit_get_file_tag ss))
      (emit_changed_calls mm _ (fun n => emit_event_calls cockpit_get_file_tag _ _ _)) 10 loop
  have c0 : calls [] = [] := rfl
  have c1 : calls [Action.parent_dispose] = [Action.parent_dispose] := rfl
  have c2 : ∀ xs, calls (Action.file_monitor_cancel :: xs) =
      Action.file_monitor_cancel :: calls xs := fun _ => rfl
  have c3 : ∀ k xs, calls (Action.signal_handler_disconnect k :: xs) =
      Action.signal_handler_disconnect k :: calls xs := fun _ _ => rfl
  have c4 : ∀ xs, calls (Action.cancellable_cancel :: xs) =
      Action.cancellable_cancel :: calls xs := fun _ => rfl
  cases canc <;> by_cases hs : sig = 0 <;>
    simp [cockpit_fsdir_dispose, hs, calls_append, hspin, drain_calls, c0, c1, c2, c3, c4]

/-- Calls and final session of the fswatch dispose for any session that holds a monitor. -/
theorem fswatch_dispose_calls (cockpit_get_file_tag : String → Option String)
    (loop : List MainContextIteration) (self : CockpitFswatch) (m : GFileMonitor)
    (hm : self.monitor = some m) :
    calls (cockpit_fswatch_dispose cockpit_get_file_tag self loop).2 =
        (if self.sig_changed ≠ 0 then [Action.signal_handler_disconnect self.sig_changed]
            else []) ++
          [Action.file_monitor_cancel] ++ drain_calls loop ++ [Action.parent_dispose] ∧
    (cockpit_fswatch_dispose cockpit_get_file_tag self loop).1 =
      { self with
        sig_changed := 0,
        monitor := some (g_file_monitor_cancel
          (if self.sig_changed ≠ 0 then g_signal_handler_disconnect m self.sig_changed
            else m)) } := by
  obtain ⟨path, mon, sig⟩ := self
  simp only at hm
  subst hm
  have hspin := fun (mm : GFileMonitor) (ss : CockpitFswatch) =>
    spin_main_loop_calls
      (g_signal_emit_changed mm (Fswatch.on_changed cockpit_get_file_tag ss))
      (emit_changed_calls mm _ (fun n => emit_event_calls cockpit_get_file_tag _ _ _)) 10 loop
  have c0 : calls [] = [] := rfl
  have c1 : calls [Action.parent_dispose] = [Action.parent_dispose] := rfl
  have c2 : ∀ xs, calls (Action.file_monitor_cancel :: xs) =
      Action.file_monitor_cancel :: calls xs := fun _ => rfl
  have c3 : ∀ k xs, calls (Action.signal_handler_disconnect k :: xs) =
      Action.signal_handler_disconnect k :: calls xs := fun _ _ => rfl
  by_cases hs : sig = 0 <;>
    simp [cockpit_fswatch_dispose, hs, calls_append, hspin, drain_calls, c0, c1, c2, c3]

/-- While the handler is connected, an emission of "changed" is translated and sent. -/
theorem emit_while_connected (cockpit_get_file_tag : String → Option String)
    (self : CockpitFswatch) (sig : Nat) (c : Bool) (n : RawNotification) :
    g_signal_emit_changed ⟨[sig], c⟩ (Fswatch.on_changed cockpit_get_file_tag self) n =
      cockpit_fswatch_emit_event cockpit_get_file_tag n.file n.other_file n.event_type := by
  simp [g_signal_emit_changed, Fswatch.on_changed]

/-- A successful fsdir prepare on a new monitor records the connected handler when its id fits
the guint field. -/
theorem fsdir_prepare_subscribes (self : CockpitFsdir) (path : String)
    (error_on_entry : ErrorSlot) (handler_id : Nat)
    (hpath : path ≠ "") (hid : handler_id < 2 ^ 32) :
    (cockpit_fsdir_prepare self (some path) error_on_entry (.ok ⟨[], false⟩) handler_id).1 =
      ⟨some path, some ⟨[handler_id], false⟩, handler_id, some ⟨false⟩⟩ := by
  simp [cockpit_fsdir_prepare, hpath, g_signal_connect, Nat.mod_eq_of_lt hid]
  omega

/-- A successful fswatch prepare on a new monitor records the connected handler when its id
fits the guint field. -/
theorem fswatch_prepare_subscribes (self : CockpitFswatch) (path : String) (handler_id : Nat)
    (hpath : path ≠ "") (hid : handler_id < 2 ^ 32) :
    (cockpit_fswatch_prepare self (some path) (.ok ⟨[], false⟩) handler_id).1 =
      { self with monitor := some ⟨[handler_id], false⟩, sig_changed := handler_id } := by
  simp [cockpit_fswatch_prepare, hpath, g_signal_connect, Nat.mod_eq_of_lt hid]
  omega

/-- A callback handed the cancellation error does nothing, in every session state. -/
theorem cancelled_result_is_noop (self : CockpitFsdir) (e : GError)
    (h : g_error_matches e G_IO_ERROR G_IO_ERROR_CANCELLED = true) :
    on_files_listed self (.error e) = (self, []) ∧
    on_enumerator_ready self (.error e) = (self, []) ∧
    (∀ rest, deliver_batches self (.error e :: rest) = (self, [], rest)) ∧
    (∀ results, deliver_enumeration self (.error e) results = (self, [], results)) := by
  refine ⟨by simp [on_files_listed, h], by simp [on_enumerator_ready, h], ?_, ?_⟩
  · intro rest
    simp [deliver_batches, on_files_listed, h]
  · intro results
    simp [deliver_enumeration, on_enumerator_ready, h]

/-- The fsdir dispose triggers the token of a session that has one. -/
theorem fsdir_dispose_triggers_token (cockpit_get_file_tag : String → Option String)
    (self : CockpitFsdir) (t : GCancellable) (loop : List MainContextIteration)
    (h : self.cancellable = some t) :
    (cockpit_fsdir_dispose cockpit_get_file_tag self loop).1.cancellable = some ⟨true⟩ := by
  obtain ⟨path, mon, sig, canc⟩ := self
  simp only at h
  subst h
  cases mon <;> simp [cockpit_fsdir_dispose]

/-- Teardown order of both dispose functions.  Dispose of a session that holds a monitor
makes, apart from channel sends, exactly these calls in this order: (a) the disconnect of the
handler recorded in `sig_changed`, skipped when that field is 0, and the field is reset to
0; (b) the cancel of the monitor; (c) `g_main_context_iteration` at most ten times, stopping
after the first call that reports nothing pending; then the parent dispose.  In snapshot mode
the token is triggered before (a).  The monitor stays in the session until finalize clears
it, and a repeated dispose performs (b) and (c) without any disconnect.  When the handler
connected to the monitor is the recorded one, no message at all is sent, whatever
notifications the main loop dispatches meanwhile.  Without a monitor dispose performs none of
(a) to (c). -/
theorem dispose_teardown_order (cockpit_get_file_tag : String → Option String)
    (loop loop2 : List MainContextIteration) :
    (∀ (self : CockpitFsdir) (m : GFileMonitor), self.monitor = some m →
      calls (cockpit_fsdir_dispose cockpit_get_file_tag self loop).2 =
        (if self.cancellable.isSome then [Action.cancellable_cancel] else []) ++
          (if self.sig_changed ≠ 0 then [Action.signal_handler_disconnect self.sig_changed]
            else []) ++
          [Action.file_monitor_cancel] ++ drain_calls loop ++ [Action.parent_dispose] ∧
      (cockpit_fsdir_dispose cockpit_get_file_tag self loop).1.sig_changed = 0 ∧
      (cockpit_fsdir_dispose cockpit_get_file_tag self loop).1.monitor =
        some (g_file_monitor_cancel
          (if self.sig_changed ≠ 0 then g_signal_handler_disconnect m self.sig_changed
            else m)) ∧
      (cockpit_fsdir_finalize
        (cockpit_fsdir_dispose cockpit_get_file_tag self loop).1).1.monitor = none ∧
      calls (cockpit_fsdir_dispose cockpit_get_file_tag
          (cockpit_fsdir_dispose cockpit_get_file_tag self loop).1 loop2).2 =
        (if self.cancellable.isSome then [Action.cancellable_cancel] else []) ++
          [Action.file_monitor_cancel] ++ drain_calls loop2 ++ [Action.parent_dispose] ∧
      (self.sig_changed ≠ 0 → (∀ x ∈ m.handlers, x = self.sig_changed) →
        sent (cockpit_fsdir_dispose cockpit_get_file_tag self loop).2 = [] ∧
        ∀ n, g_signal_emit_changed (g_signal_handler_disconnect m self.sig_changed)
          (Fsdir.on_changed cockpit_get_file_tag self) n = [])) ∧
    (∀ (self : CockpitFswatch) (m : GFileMonitor), self.monitor = some m →
      calls (cockpit_fswatch_dispose cockpit_get_file_tag self loop).2 =
        (if self.sig_changed ≠ 0 then [Action.signal_handler_disconnect self.sig_changed]
            else []) ++
          [Action.file_monitor_cancel] ++ drain_calls loop ++ [Action.parent_dispose] ∧
      (cockpit_fswatch_dispose cockpit_get_file_tag self loop).1.sig_changed = 0 ∧
      (cockpit_fswatch_dispose cockpit_get_file_tag self loop).1.monitor =
        some (g_file_monitor_cancel
          (if self.sig_changed ≠ 0 then g_signal_handler_disconnect m self.sig_changed
            else m)) ∧
      (cockpit_fswatch_finalize
        (cockpit_fswatch_dispose cockpit_get_file_tag self loop).1).1.monitor = none ∧
      calls (cockpit_fswatch_dispose cockpit_get_file_tag
          (cockpit_fswatch_dispose cockpit_get_file_tag self loop).1 loop2).2 =
        [Action.file_monitor_cancel] ++ drain_calls loop2 ++ [Action.parent_dispose] ∧
      (self.sig_changed ≠ 0 → (∀ x ∈ m.handlers, x = self.sig_changed) →
        sent (cockpit_fswatch_dispose cockpit_get_file_tag self loop).2 = [] ∧
        ∀ n, g_signal_emit_changed (g_signal_handler_disconnect m self.sig_changed)
          (Fswatch.on_changed cockpit_get_file_tag self) n = [])) ∧
    (∀ self : CockpitFsdir, self.monitor = none →
      cockpit_fsdir_dispose cockpit_get_file_tag self loop =
        ({ self with cancellable := self.cancellable.map (fun _ => ⟨true⟩) },
          (if self.cancellable.isSome then [Action.cancellable_cancel] else []) ++
            [Action.parent_dispose])) ∧
    (∀ self : CockpitFswatch, self.monitor = none →
      cockpit_fswatch_dispose cockpit_get_file_tag self loop =
        (self, [Action.parent_dispose])) ∧
    (drain_calls loop).length = min 10 (busy_run loop + 1) ∧
    (drain_calls loop).length ≤ 10 ∧
    (∀ a ∈ drain_calls loop, a = Action.main_context_iteration true ∨
      a = Action.main_context_iteration false) := by
  refine ⟨?_, ?_, ?_, ?_, drain_calls_length loop, ?_, ?_⟩
  · intro self m hm
    obtain ⟨h1, h2⟩ := fsdir_dispose_calls cockpit_get_file_tag loop self m hm
    obtain ⟨h3, -⟩ := fsdir_dispose_calls cockpit_get_file_tag loop2
      (cockpit_fsdir_dispose cockpit_get_file_tag self loop).1 _ (by rw [h2])
    refine ⟨h1, by rw [h2], by rw [h2], rfl, ?_, ?_⟩
    · rw [h3, h2]
      cases self.cancellable <;> simp
    · intro hs hh
      refine ⟨?_, ?_⟩
      · rw [fsdir_dispose_subscribed cockpit_get_file_tag loop self m hm hs hh]
        cases self.cancellable <;> simp [sent_append, sent_drain_calls, sent]
      · intro n
        rw [disconnect_only_handler m _ hh]
        rfl
  · intro self m hm
    obtain ⟨h1, h2⟩ := fswatch_dispose_calls cockpit_get_file_tag loop self m hm
    obtain ⟨h3, -⟩ := fswatch_dispose_calls cockpit_get_file_tag loop2
      (cockpit_fswatch_dispose cockpit_get_file_tag self loop).1 _ (by rw [h2])
    refine ⟨h1, by rw [h2], by rw [h2], rfl, ?_, ?_⟩
    · rw [h3, h2]
      simp
    · intro hs hh
      refine ⟨?_, ?_⟩
      · rw [fswatch_dispose_subscribed cockpit_get_file_tag loop self m hm hs hh]
        simp [sent_append, sent_drain_calls, sent]
      · intro n
        rw [disconnect_only_handler m _ hh]
        rfl
  · intro self hm
    obtain ⟨path, mon, sig, canc⟩ := self
    simp only at hm
    subst hm
    cases canc <;> simp [cockpit_fsdir_dispose]
  · intro self hm
    obtain ⟨path, mon, sig⟩ := self
    simp only at hm
    subst hm
    simp [cockpit_fswatch_dispose]
  · rw [drain_calls_length]
    exact Nat.min_le_left _ _
  · intro a ha
    unfold drain_calls at ha
    split_ifs at ha <;> simp [List.mem_replicate] at ha <;> tauto

/-- Example of the teardown order: an fsdir session prepared on "/etc" with handler id 7, disposed while
the main loop still dispatches one notification and then reports nothing pending: no message
is sent. -/
theorem dispose_teardown_order_example :
    calls (cockpit_fsdir_dispose (fun _ => none)
        (cockpit_fsdir_prepare cockpit_fsdir_init (some "/etc") .null (.ok ⟨[], false⟩) 7).1
        [⟨[⟨some ⟨"/etc/motd"⟩, none, G_FILE_MONITOR_EVENT_CHANGED⟩], true⟩, ⟨[], false⟩]).2 =
      [Action.cancellable_cancel, Action.signal_handler_disconnect 7,
       Action.file_monitor_cancel, Action.main_context_iteration true,
       Action.main_context_iteration false, Action.parent_dispose] ∧
    sent (cockpit_fsdir_dispose (fun _ => none)
        (cockpit_fsdir_prepare cockpit_fsdir_init (some "/etc") .null (.ok ⟨[], false⟩) 7).1
        [⟨[⟨some ⟨"/etc/motd"⟩, none, G_FILE_MONITOR_EVENT_CHANGED⟩], true⟩, ⟨[], false⟩]).2 =
      [] :=
  ⟨((dispose_teardown_order (fun _ => none)
      [⟨[⟨some ⟨"/etc/motd"⟩, none, G_FILE_MONITOR_EVENT_CHANGED⟩], true⟩, ⟨[], false⟩]
      []).1
    (cockpit_fsdir_prepare cockpit_fsdir_init (some "/etc") .null (.ok ⟨[], false⟩) 7).1
    ⟨[7], false⟩ rfl).1,
   (((dispose_teardown_order (fun _ => none)
      [⟨[⟨some ⟨"/etc/motd"⟩, none, G_FILE_MONITOR_EVENT_CHANGED⟩], true⟩, ⟨[], false⟩]
      []).1
    (cockpit_fsdir_prepare cockpit_fsdir_init (some "/etc") .null (.ok ⟨[], false⟩) 7).1
    ⟨[7], false⟩ rfl).2.2.2.2.2 (by decide) (by decide)).1⟩

/-! ## The claims -/

/-- C1: when the listing arrives as non-empty successful batches followed by one empty
batch, the enumerator sends one "present" per entry, in listing order and with the entry name
as "path", then one "present-done" that has no "path"; a batch request follows every
non-empty batch and none follows "present-done", which is the last call made: whatever the
enumerator could still return is never asked for.  With no entry at all the only message is
"present-done". -/
theorem C1_snapshot_listing (self : CockpitFsdir) (batches : List (List GFileInfo))
    (rest : List (Except GError (List GFileInfo))) (h : ∀ b ∈ batches, b ≠ []) :
    deliver_batches self (batches.map Except.ok ++ .ok [] :: rest) =
      ({ self with cancellable := none },
        batches.flatMap batch_actions ++ [Action.channel_send present_done_message false],
        rest) ∧
    deliver_enumeration self (.ok ()) (batches.map Except.ok ++ .ok [] :: rest) =
      ({ self with cancellable := none },
        Action.file_enumerator_next_files_async 10 ::
          (batches.flatMap batch_actions ++ [Action.channel_send present_done_message false]),
        rest) ∧
    sent (deliver_batches self (batches.map Except.ok ++ .ok [] :: rest)).2.1 =
      batches.flatten.map present_message ++ [present_done_message] ∧
    (batches.flatten.map present_message).length = batches.flatten.length ∧
    (∀ info : GFileInfo, present_message info =
      [("event", JsonNode.str "present"), ("path", JsonNode.str info.name)]) ∧
    present_done_message = [("event", JsonNode.str "present-done")] ∧
    json_object_has_member present_done_message "path" = false ∧
    sent (deliver_batches self (.ok [] :: rest)).2.1 = [present_done_message] := by
  have hrun := deliver_batches_listing self batches rest h
  refine ⟨hrun, ?_, ?_, List.length_map _ _, ?_, rfl, by decide, ?_⟩
  · simp [deliver_enumeration, on_enumerator_ready, Action.isNextFiles, hrun]
  · rw [hrun]
    simp [sent_append, sent_flatMap_batch_actions, sent]
  · intro info
    simp [present_message, json_object_set_string_member, json_object_new,
      json_node_of_string]
  · rw [deliver_batches_done]
    simp [sent]

/-- Witness for C1: three entries delivered as the batches [a, b] and [c]. -/
theorem C1_snapshot_listing_witness :
    sent (deliver_batches cockpit_fsdir_init
        ([[⟨"a"⟩, ⟨"b"⟩], [⟨"c"⟩]].map Except.ok ++
          .ok [] :: [.ok [⟨"never"⟩]])).2.1 =
      [[⟨"a"⟩, ⟨"b"⟩], [⟨"c"⟩]].flatten.map present_message ++ [present_done_message] :=
  (C1_snapshot_listing cockpit_fsdir_init [[⟨"a"⟩, ⟨"b"⟩], [⟨"c"⟩]] [.ok [⟨"never"⟩]]
    (by decide)).2.2.1

/-- C2, refuted as stated: on "/etc" with a monitor that can be established, the
enumeration-open call comes before the monitor subscription in the calls of
`cockpit_fsdir_prepare`; and with a monitor that fails the enumeration-open call has been
issued all the same. -/
theorem C2_counterexample :
    (cockpit_fsdir_prepare cockpit_fsdir_init (some "/etc") .null (.ok ⟨[], false⟩) 1).2 =
      [Action.channel_prepare, Action.cancellable_new,
       Action.file_enumerate_children_async "/etc", Action.file_monitor_directory "/etc",
       Action.signal_connect 1, Action.channel_ready] ∧
    (cockpit_fsdir_prepare cockpit_fsdir_init (some "/etc") .null
        (.error ⟨G_IO_ERROR, 15, "Operation not supported"⟩) 1).2 =
      [Action.channel_prepare, Action.cancellable_new,
       Action.file_enumerate_children_async "/etc", Action.file_monitor_directory "/etc",
       Action.channel_close_option "message" "Operation not supported",
       Action.channel_close "internal-error"] ∧
    List.indexOf (Action.file_enumerate_children_async "/etc")
        (cockpit_fsdir_prepare cockpit_fsdir_init (some "/etc") .null (.ok ⟨[], false⟩) 1).2 <
      List.indexOf (Action.file_monitor_directory "/etc")
        (cockpit_fsdir_prepare cockpit_fsdir_init (some "/etc") .null (.ok ⟨[], false⟩) 1).2 := by
  refine ⟨rfl, rfl, ?_⟩
  decide

/-- C2, amended: for a non-empty path `cockpit_fsdir_prepare` makes a fresh token, issues
the enumeration-open call once, and directly afterwards asks for the monitor once; the
enumeration-open call precedes the subscription and is issued whether or not the
subscription then succeeds. -/
theorem C2_enumeration_opened_before_monitor (self : CockpitFsdir) (path : String)
    (error_on_entry : ErrorSlot) (monitor_result : Except GError GFileMonitor)
    (handler_id : Nat) (hpath : path ≠ "") :
    ∃ tail : List Action,
      (cockpit_fsdir_prepare self (some path) error_on_entry monitor_result handler_id).2 =
        [Action.channel_prepare, Action.cancellable_new,
         Action.file_enumerate_children_async path, Action.file_monitor_directory path] ++
          tail ∧
      tail.any Action.isEnumerateChildren = false ∧
      tail.any Action.isMonitorCreate = false ∧
      (cockpit_fsdir_prepare self (some path) error_on_entry monitor_result
          handler_id).1.cancellable = some ⟨false⟩ := by
  cases monitor_result with
  | error e =>
    cases error_on_entry with
    | null =>
      exact ⟨[Action.channel_close_option "message" e.message,
        Action.channel_close "internal-error"], by simp [cockpit_fsdir_prepare, hpath],
        by simp [Action.isEnumerateChildren], by simp [Action.isMonitorCreate],
        by simp [cockpit_fsdir_prepare, hpath]⟩
    | indeterminate =>
      exact ⟨[Action.undefined_behaviour], by simp [cockpit_fsdir_prepare, hpath],
        by simp [Action.isEnumerateChildren], by simp [Action.isMonitorCreate],
        by simp [cockpit_fsdir_prepare, hpath]⟩
  | ok m =>
    exact ⟨[Action.signal_connect handler_id, Action.channel_ready],
      by simp [cockpit_fsdir_prepare, hpath],
      by simp [Action.isEnumerateChildren], by simp [Action.isMonitorCreate],
      by simp [cockpit_fsdir_prepare, hpath]⟩

/-- Witness for the amended C2 on "/etc" with a monitor that fails. -/
theorem C2_enumeration_opened_before_monitor_witness :
    ∃ tail : List Action,
      (cockpit_fsdir_prepare cockpit_fsdir_init (some "/etc") .null
          (.error ⟨G_IO_ERROR, 15, "Operation not supported"⟩) 1).2 =
        [Action.channel_prepare, Action.cancellable_new,
         Action.file_enumerate_children_async "/etc", Action.file_monitor_directory "/etc"] ++
          tail ∧
      tail.any Action.isEnumerateChildren = false ∧
      tail.any Action.isMonitorCreate = false ∧
      (cockpit_fsdir_prepare cockpit_fsdir_init (some "/etc") .null
          (.error ⟨G_IO_ERROR, 15, "Operation not supported"⟩) 1).1.cancellable =
        some ⟨false⟩ :=
  C2_enumeration_opened_before_monitor cockpit_fsdir_init "/etc" .null
    (.error ⟨G_IO_ERROR, 15, "Operation not supported"⟩) 1 (by decide)

/-- C3: in both channels, a "path" option that is absent or empty makes prepare do nothing
but close the channel with "protocol-error" after the parent prepare: nothing is sent, no
monitor is asked for, no enumeration is opened, no token is made, "ready" is not signalled
and the monitor fields of the session stay as they were; and "protocol-error" is the close
reason of prepare only for such a path. -/
theorem C3_missing_path_protocol_error (option_path : Option String)
    (error_on_entry : ErrorSlot) (monitor_result : Except GError GFileMonitor)
    (handler_id : Nat) :
    (∀ self : CockpitFsdir, option_path = none ∨ option_path = some "" →
      (cockpit_fsdir_prepare self option_path error_on_entry monitor_result handler_id).2 =
        [Action.channel_prepare, Action.channel_close "protocol-error"] ∧
      (cockpit_fsdir_prepare self option_path error_on_entry monitor_result handler_id).1 =
        { self with path := option_path }) ∧
    (∀ self : CockpitFswatch, option_path = none ∨ option_path = some "" →
      cockpit_fswatch_prepare self option_path monitor_result handler_id =
        (self, [Action.channel_prepare, Action.channel_close "protocol-error"])) ∧
    (∀ self : CockpitFsdir,
      Action.channel_close "protocol-error" ∈
          (cockpit_fsdir_prepare self option_path error_on_entry monitor_result
            handler_id).2 →
        option_path = none ∨ option_path = some "") ∧
    (∀ self : CockpitFswatch,
      Action.channel_close "protocol-error" ∈
          (cockpit_fswatch_prepare self option_path monitor_result handler_id).2 →
        option_path = none ∨ option_path = some "") := by
  refine ⟨?_, ?_, ?_, ?_⟩
  · rintro self (rfl | rfl) <;> simp [cockpit_fsdir_prepare]
  · rintro self (rfl | rfl) <;> simp [cockpit_fswatch_prepare]
  · intro self h
    cases option_path with
    | none => exact Or.inl rfl
    | some path =>
      by_cases hp : path = ""
      · exact Or.inr (by rw [hp])
      · exfalso
        cases monitor_result <;> cases error_on_entry <;>
          simp [cockpit_fsdir_prepare, hp] at h
  · intro self h
    cases option_path with
    | none => exact Or.inl rfl
    | some path =>
      by_cases hp : path = ""
      · exact Or.inr (by rw [hp])
      · exfalso
        cases monitor_result <;> simp [cockpit_fswatch_prepare, hp] at h

/-- Witness for C3: a fresh fsdir session opened with an empty path. -/
theorem C3_missing_path_protocol_error_witness :
    (cockpit_fsdir_prepare cockpit_fsdir_init (some "") .null (.ok ⟨[], false⟩) 1).2 =
        [Action.channel_prepare, Action.channel_close "protocol-error"] ∧
      (cockpit_fsdir_prepare cockpit_fsdir_init (some "") .null (.ok ⟨[], false⟩) 1).1 =
        { cockpit_fsdir_init with path := some "" } :=
  (C3_missing_path_protocol_error (some "") .null (.ok ⟨[], false⟩) 1).1 cockpit_fsdir_init
    (Or.inr rfl)

/-- C5: a MOVED notification with primary path p and secondary path q makes
`cockpit_fswatch_emit_event` send exactly one message, the object with the four members
event = "moved", path = p, tag = the tag utility's answer for p (null when it has none) and
other = q, in both channels' `on_changed` handlers as well. -/
theorem C5_moved_event_message (cockpit_get_file_tag : String → Option String)
    (p q : String) :
    cockpit_fswatch_emit_event cockpit_get_file_tag (some ⟨p⟩) (some ⟨q⟩)
        G_FILE_MONITOR_EVENT_MOVED =
      [Action.channel_send
        [("event", JsonNode.str "moved"), ("path", JsonNode.str p),
         ("tag", json_node_of_string (cockpit_get_file_tag p)), ("other", JsonNode.str q)]
        true] ∧
    (∀ self : CockpitFswatch,
      Fswatch.on_changed cockpit_get_file_tag self ⟨some ⟨p⟩, some ⟨q⟩,
          G_FILE_MONITOR_EVENT_MOVED⟩ =
        cockpit_fswatch_emit_event cockpit_get_file_tag (some ⟨p⟩) (some ⟨q⟩)
          G_FILE_MONITOR_EVENT_MOVED) ∧
    (∀ self : CockpitFsdir,
      Fsdir.on_changed cockpit_get_file_tag self ⟨some ⟨p⟩, some ⟨q⟩,
          G_FILE_MONITOR_EVENT_MOVED⟩ =
        cockpit_fswatch_emit_event cockpit_get_file_tag (some ⟨p⟩) (some ⟨q⟩)
          G_FILE_MONITOR_EVENT_MOVED) := by
  refine ⟨?_, fun _ => rfl, fun _ => rfl⟩
  simp [cockpit_fswatch_emit_event, json_object_set_string_member, json_object_new,
    g_file_get_path, json_node_of_string]
  decide

/-- C6: `event_type_to_string` is a total function from event codes to the nine wire kinds:
the eight recognised codes go to their names, every other code goes to "unknown", the map is
injective on the recognised codes, and "present" and "present-done" are never produced. -/
theorem C6_event_type_to_string_table :
    event_type_to_string G_FILE_MONITOR_EVENT_CHANGED = "changed" ∧
    event_type_to_string G_FILE_MONITOR_EVENT_CHANGES_DONE_HINT = "done-hint" ∧
    event_type_to_string G_FILE_MONITOR_EVENT_DELETED = "deleted" ∧
    event_type_to_string G_FILE_MONITOR_EVENT_CREATED = "created" ∧
    event_type_to_string G_FILE_MONITOR_EVENT_ATTRIBUTE_CHANGED = "attribute-changed" ∧
    event_type_to_string G_FILE_MONITOR_EVENT_PRE_UNMOUNT = "pre-unmount" ∧
    event_type_to_string G_FILE_MONITOR_EVENT_UNMOUNTED = "unmounted" ∧
    event_type_to_string G_FILE_MONITOR_EVENT_MOVED = "moved" ∧
    (∀ e : GFileMonitorEvent, e ∉ recognised_events → event_type_to_string e = "unknown") ∧
    (∀ e : GFileMonitorEvent, event_type_to_string e ∈ wire_kinds) ∧
    (∀ a ∈ recognised_events, ∀ b ∈ recognised_events,
      event_type_to_string a = event_type_to_string b → a = b) ∧
    (∀ e : GFileMonitorEvent,
      event_type_to_string e ≠ "present" ∧ event_type_to_string e ≠ "present-done") := by
  refine ⟨by decide, by decide, by decide, by decide, by decide, by decide, by decide,
    by decide, ?_, ?_, ?_, ?_⟩
  · intro e he
    simp only [recognised_events, List.mem_cons, List.mem_singleton, not_or, List.mem_nil_iff,
      or_false] at he
    obtain ⟨h0, h1, h2, h3, h4, h5, h6, h7⟩ := he
    simp [event_type_to_string, h0, h1, h2, h3, h4, h5, h6, h7]
  · intro e
    unfold event_type_to_string
    split_ifs <;> simp [wire_kinds]
  · intro a ha b hb hab
    simp only [recognised_events, List.mem_cons, List.mem_singleton, List.mem_nil_iff,
      or_false] at ha hb
    rcases ha with rfl | rfl | rfl | rfl | rfl | rfl | rfl | rfl <;>
      rcases hb with rfl | rfl | rfl | rfl | rfl | rfl | rfl | rfl <;>
      first
        | rfl
        | (exfalso; revert hab; decide)
  · intro e
    unfold event_type_to_string
    split_ifs <;> simp

/-- Witness for C6 on a code outside the table: code 8 is sent as "unknown". -/
theorem C6_event_type_to_string_table_witness : event_type_to_string 8 = "unknown" :=
  C6_event_type_to_string_table.2.2.2.2.2.2.2.2.1 8 (by decide)

/-- C7: in every session state whose token has been triggered, the batch callback is a
no-op whatever the listing itself produced (a non-empty batch, an empty batch, a
cancellation error or any other error): the finish call of a request issued with the
session token reports cancellation, and `on_files_listed` then sends nothing, sets no close
option, does not close the channel, leaves the session as it was and issues no batch
request, so no further callback is delivered.  The same holds for `on_enumerator_ready`, and
dispose is what triggers the token. -/
theorem C7_cancellation_noop (self : CockpitFsdir) (c : GCancellable)
    (htoken : self.cancellable = some c) (hcancelled : c.cancelled = true) :
    (∀ outcome : Except GError (List GFileInfo),
      on_files_listed self (g_file_enumerator_next_files_finish self outcome) =
        (self, [])) ∧
    (∀ outcome : Except GError Unit,
      on_enumerator_ready self (g_file_enumerate_children_finish self outcome) =
        (self, [])) ∧
    (∀ (outcome : Except GError (List GFileInfo))
        (rest : List (Except GError (List GFileInfo))),
      deliver_batches self (g_file_enumerator_next_files_finish self outcome :: rest) =
        (self, [], rest)) ∧
    (∀ (outcome : Except GError Unit) (results : List (Except GError (List GFileInfo))),
      deliver_enumeration self (g_file_enumerate_children_finish self outcome) results =
        (self, [], results)) ∧
    (∀ (cockpit_get_file_tag : String → Option String) (before : CockpitFsdir)
        (t : GCancellable) (loop : List MainContextIteration),
      before.cancellable = some t →
      (cockpit_fsdir_dispose cockpit_get_file_tag before loop).1.cancellable =
        some ⟨true⟩) := by
  have hfiles : ∀ outcome : Except GError (List GFileInfo),
      g_file_enumerator_next_files_finish self outcome =
        .error ⟨G_IO_ERROR, G_IO_ERROR_CANCELLED, "Operation was cancelled"⟩ := by
    intro outcome
    simp [g_file_enumerator_next_files_finish, g_task_propagate, htoken, hcancelled]
  have hopen : ∀ outcome : Except GError Unit,
      g_file_enumerate_children_finish self outcome =
        .error ⟨G_IO_ERROR, G_IO_ERROR_CANCELLED, "Operation was cancelled"⟩ := by
    intro outcome
    simp [g_file_enumerate_children_finish, g_task_propagate, htoken, hcancelled]
  have hmatch : g_error_matches ⟨G_IO_ERROR, G_IO_ERROR_CANCELLED, "Operation was cancelled"⟩
      G_IO_ERROR G_IO_ERROR_CANCELLED = true := by decide
  have hnoop := cancelled_result_is_noop self _ hmatch
  refine ⟨fun outcome => by rw [hfiles]; exact hnoop.1,
    fun outcome => by rw [hopen]; exact hnoop.2.1,
    fun outcome rest => by rw [hfiles]; exact hnoop.2.2.1 rest,
    fun outcome results => by rw [hopen]; exact hnoop.2.2.2 results, ?_⟩
  intro cockpit_get_file_tag before t loop hbefore
  exact fsdir_dispose_triggers_token cockpit_get_file_tag before t loop hbefore

/-- Witness for C7: a session whose token was triggered while a batch request was
outstanding; the listing produced an entry, the callback does nothing. -/
theorem C7_cancellation_noop_witness :
    on_files_listed ⟨some "/etc", none, 0, some ⟨true⟩⟩
        (g_file_enumerator_next_files_finish ⟨some "/etc", none, 0, some ⟨true⟩⟩
          (.ok [⟨"passwd"⟩])) =
      (⟨some "/etc", none, 0, some ⟨true⟩⟩, []) :=
  (C7_cancellation_noop ⟨some "/etc", none, 0, some ⟨true⟩⟩ ⟨true⟩ rfl rfl).1
    (.ok [⟨"passwd"⟩])

/-- C8, refuted as stated: a CHANGED notification that carries a secondary path is sent with
an "other" member although its wire kind is "changed". -/
theorem C8_counterexample :
    cockpit_fswatch_emit_event (fun _ => some "1:2-3") (some ⟨"/a/x"⟩) (some ⟨"/a/y"⟩)
        G_FILE_MONITOR_EVENT_CHANGED =
      [Action.channel_send
        [("event", JsonNode.str "changed"), ("path", JsonNode.str "/a/x"),
         ("tag", JsonNode.str "1:2-3"), ("other", JsonNode.str "/a/y")] true] ∧
    json_object_has_member
      [("event", JsonNode.str "changed"), ("path", JsonNode.str "/a/x"),
       ("tag", JsonNode.str "1:2-3"), ("other", JsonNode.str "/a/y")] "other" = true := by
  decide

/-- C8, amended: `cockpit_fswatch_emit_event` sends exactly one message; it always has the
"event" member, holding the wire kind; it has "other" exactly when the notification carries a
secondary path, whatever the kind; it has "path" and "tag" exactly when a primary path is
present. -/
theorem C8_field_presence (cockpit_get_file_tag : String → Option String)
    (file other_file : Option GFile) (event_type : GFileMonitorEvent) :
    ∃ msg : JsonObject,
      cockpit_fswatch_emit_event cockpit_get_file_tag file other_file event_type =
        [Action.channel_send msg true] ∧
      json_object_get_member msg "event" =
        some (JsonNode.str (event_type_to_string event_type)) ∧
      json_object_has_member msg "other" = other_file.isSome ∧
      json_object_has_member msg "path" = file.isSome ∧
      json_object_has_member msg "tag" = file.isSome ∧
      (∀ o, other_file = some o →
        json_object_get_member msg "other" = some (JsonNode.str o.path)) ∧
      (∀ f, file = some f →
        json_object_get_member msg "path" = some (JsonNode.str f.path) ∧
        json_object_get_member msg "tag" =
          some (json_node_of_string (cockpit_get_file_tag f.path))) := by
  refine ⟨_, rfl, ?_⟩
  cases file <;> cases other_file <;>
    simp [json_object_set_string_member, json_object_new, json_object_has_member,
      json_object_get_member, g_file_get_path, json_node_of_string, List.find?]

/-- C9: a batch result that is an error other than cancellation makes `on_files_listed` set
the "message" close option to the error text and close the channel with "internal-error",
once, and nothing else: no message is sent, no batch is requested, so no later callback is
delivered and, after any number of batches, the messages sent are the "present" ones only,
without "present-done".  `on_enumerator_ready` reports a failed open in the same way and
then no entry is produced. -/
theorem C9_enumeration_failure (self : CockpitFsdir) (e : GError)
    (h : g_error_matches e G_IO_ERROR G_IO_ERROR_CANCELLED = false) :
    on_files_listed self (.error e) =
      (self, [Action.channel_close_option "message" e.message,
        Action.channel_close "internal-error"]) ∧
    (∀ rest, deliver_batches self (.error e :: rest) =
      (self, [Action.channel_close_option "message" e.message,
        Action.channel_close "internal-error"], rest)) ∧
    (∀ (batches : List (List GFileInfo)) (rest : List (Except GError (List GFileInfo))),
      (∀ b ∈ batches, b ≠ []) →
      deliver_batches self (batches.map Except.ok ++ .error e :: rest) =
        (self, batches.flatMap batch_actions ++
          [Action.channel_close_option "message" e.message,
           Action.channel_close "internal-error"], rest) ∧
      sent (deliver_batches self (batches.map Except.ok ++ .error e :: rest)).2.1 =
        batches.flatten.map present_message) ∧
    on_enumerator_ready self (.error e) =
      (self, [Action.channel_close_option "message" e.message,
        Action.channel_close "internal-error"]) ∧
    (∀ results, deliver_enumeration self (.error e) results =
      (self, [Action.channel_close_option "message" e.message,
        Action.channel_close "internal-error"], results)) := by
  refine ⟨by simp [on_files_listed, h], fun rest => deliver_batches_failure self e rest h,
    ?_, by simp [on_enumerator_ready, h], ?_⟩
  · intro batches rest hb
    have hrun := deliver_batches_leading self batches (.error e :: rest) hb
    rw [deliver_batches_failure self e rest h] at hrun
    refine ⟨hrun, ?_⟩
    rw [hrun]
    simp [sent_append, sent_flatMap_batch_actions, sent]
  · intro results
    simp [deliver_enumeration, on_enumerator_ready, h, Action.isNextFiles]

/-- Witness for C9: a permission error on the second batch. -/
theorem C9_enumeration_failure_witness :
    deliver_batches cockpit_fsdir_init
        ([[⟨"a"⟩]].map Except.ok ++
          .error ⟨G_IO_ERROR, 14, "Permission denied"⟩ :: [.ok []]) =
      (cockpit_fsdir_init, [[⟨"a"⟩]].flatMap batch_actions ++
        [Action.channel_close_option "message" "Permission denied",
         Action.channel_close "internal-error"], [.ok []]) :=
  ((C9_enumeration_failure cockpit_fsdir_init ⟨G_IO_ERROR, 14, "Permission denied"⟩
    (by decide)).2.2.1 [[⟨"a"⟩]] [.ok []] (by decide)).1

end Cockpit
